import Mathlib

/-!
Verification of the `youtube-list` program (src/main.rs): a shallow embedding
of its pagination loop, record normalizers, link-id derivation, HTML
extraction loop and output-path selection, together with theorems settling
the specification's claims about them.

Strings are modelled as `List Char`; Rust `Option` maps to Lean `Option`;
a Rust panic (`unwrap` / out-of-bounds index / `expect`) maps to `none` in
an `Option`-valued result.
-/

abbrev Str : Type := List Char

/-- Fuel-driven splitter mirroring Rust `str::split` with a non-empty literal
pattern: leftmost, non-overlapping matches; an accumulator collects the
current segment. The fuel only needs to dominate the input length. -/
def splitOnFuel (sep : List Char) : Nat → List Char → List Char → List (List Char)
  | _, [], acc => [acc.reverse]
  | 0, c :: rest, acc => [acc.reverse ++ c :: rest]
  | fuel + 1, c :: rest, acc =>
    if sep.isPrefixOf (c :: rest) then
      acc.reverse :: splitOnFuel sep fuel (List.drop (sep.length - 1) rest) []
    else
      splitOnFuel sep fuel rest (c :: acc)

/-- Rust `link.split(sep).collect::<Vec<_>>()` for a non-empty `sep`. -/
def splitOnL (sep s : List Char) : List (List Char) :=
  splitOnFuel sep s.length s []

/-- The literal marker `watch?v=` used by `split_video_id`. -/
def wmark : List Char := "watch?v=".toList

/-- The literal marker `&list=` used by `split_video_id`. -/
def lmark : List Char := "&list=".toList

/-- Embedding of `split_video_id` (src/main.rs:242-249). Rust indexes
`parts[1]` after splitting on `watch?v=`, which panics when the marker is
absent; the panic is modelled as `none`. The second index `parts[0]` can
never fail because a split result is never empty. -/
def split_video_id (link : Str) : Option Str :=
  let parts := splitOnL wmark link
  match parts.get? 1 with
  | none => none
  | some p1 =>
    let parts2 := splitOnL lmark p1
    parts2.get? 0

/-- Spec-modelled companion of the claim language, following the spec's words:
the entire remainder of the string after the first occurrence of `sep`
(empty when `sep` does not occur). -/
def remainderAfterFirst (sep : List Char) (s : Str) : Str :=
  List.intercalate sep (splitOnL sep s).tail

/-- Spec-modelled companion of the claim language, following the spec's words:
the substring strictly between the first `watch?v=` and the next `&list=`
(the whole remainder when `&list=` does not follow). -/
def specBetween (link : Str) : Str :=
  (splitOnL lmark (remainderAfterFirst wmark link)).headD []

/-- Embedding of `get_text` (src/main.rs:171-176). -/
def get_text (option : Option Str) (default : Str) : Str :=
  match option with
  | some text => text
  | none => default

/-- Remote `youtube3::PlaylistStatus`. -/
structure YtPlaylistStatus where
  privacy_status : Option Str
deriving DecidableEq

/-- Remote `youtube3::PlaylistSnippet` (the fields `parse_playlist` reads). -/
structure YtPlaylistSnippet where
  title : Option Str
  description : Option Str
  channel_title : Option Str
  tags : Option (List Str)
  published_at : Option Str
deriving DecidableEq

/-- Remote `youtube3::Playlist` (the fields the program reads). -/
structure YtPlaylist where
  id : Option Str
  status : Option YtPlaylistStatus
  snippet : Option YtPlaylistSnippet
deriving DecidableEq

/-- Remote `youtube3::PlaylistItemContentDetails` (the fields read). -/
structure YtContentDetails where
  video_id : Option Str
  video_published_at : Option Str
deriving DecidableEq

/-- Remote `youtube3::PlaylistItemSnippet` (the fields read). -/
structure YtItemSnippet where
  title : Option Str
  position : Option Nat
  published_at : Option Str
  description : Option Str
deriving DecidableEq

/-- Remote `youtube3::PlaylistItem` (the fields the program reads). -/
structure YtPlaylistItem where
  snippet : Option YtItemSnippet
  content_details : Option YtContentDetails
deriving DecidableEq

/-- Output record `PlaylistItem` (src/main.rs:63-70). -/
structure PlaylistItem where
  title : Str
  link : Str
  published_at : Str
  position_in_playlist : Nat
  description : Str
deriving DecidableEq

/-- Output record `Playlist` (src/main.rs:51-61). -/
structure Playlist where
  title : Str
  description : Str
  channel_title : Str
  tags : Str
  published_at : Str
  id : Str
  status : Str
  items : List PlaylistItem
deriving DecidableEq

/-- Output record `SimplePlaylistItem` (src/main.rs:72-78). -/
structure SimplePlaylistItem where
  title : Str
  channel_name : Str
  link : Str
  id : Str
deriving DecidableEq

/-- Embedding of `Playlist::new` (src/main.rs:91-102). -/
def Playlist.new : Playlist :=
  { title := [], description := [], channel_title := [], tags := []
    published_at := [], id := [], status := [], items := [] }

/-- Embedding of `PlaylistItem::new` (src/main.rs:106-114). -/
def PlaylistItem.new : PlaylistItem :=
  { title := [], link := [], published_at := [], position_in_playlist := 0
    description := [] }

/-- Embedding of `parse_playlist` (src/main.rs:178-213). Rust `unwrap_or`
maps to `Option.getD`; `Vec::join(", ")` maps to `List.intercalate`. -/
def parse_playlist (playlist : YtPlaylist) : Playlist :=
  let default_status : YtPlaylistStatus := { privacy_status := some "Unknown".toList }
  let playlist_id := get_text playlist.id []
  let playlist_status :=
    get_text (playlist.status.getD default_status).privacy_status "Unknown".toList
  let info := Playlist.new
  let info :=
    match playlist.snippet with
    | some snippet =>
      { info with
          title := snippet.title.getD "NO_TITLE".toList
          description := snippet.description.getD []
          channel_title := snippet.channel_title.getD "NO_TITLE".toList
          tags := List.intercalate ", ".toList (snippet.tags.getD [])
          published_at := snippet.published_at.getD "NO_TITLE".toList }
    | none => info
  { info with id := playlist_id, status := playlist_status }

/-- Embedding of `parse_playlist_item` (src/main.rs:215-240). The
`published_at` field is written first from content details, then
unconditionally overwritten from the snippet (default empty). -/
def parse_playlist_item (item : YtPlaylistItem) : PlaylistItem :=
  let info := PlaylistItem.new
  match item.snippet with
  | some snippet =>
    let info := { info with title := get_text snippet.title [] }
    let info :=
      match item.content_details with
      | some details =>
        let video_id := get_text details.video_id []
        { info with
            published_at := get_text details.video_published_at []
            link := "https://www.youtube.com/watch?v=".toList ++ video_id }
      | none => info
    { info with
        position_in_playlist := snippet.position.getD 0
        published_at := get_text snippet.published_at []
        description := get_text snippet.description [] }
  | none => info

/-- One page answered by the remote listing capability: the optional items
collection and the optional continuation token, as in the `youtube3`
list responses consumed at src/main.rs:117-169. -/
structure Page (α : Type) where
  items : Option (List α)
  next_page_token : Option Str
deriving DecidableEq

/-- Embedding of the shared pagination loop of `request_playlists`
(src/main.rs:117-140) and `parse_playlist_items` (src/main.rs:142-169).
The input list holds the pages the remote returns on successive calls.
`result.items.unwrap()` panicking on an absent items collection is
modelled as `none`; an exhausted page list while the loop still expects
a response is likewise `none`. -/
def fetchAll {α : Type} : List (Page α) → Option (List α)
  | [] => none
  | p :: rest =>
    match p.items with
    | none => none
    | some its =>
      match p.next_page_token with
      | some _ => (fetchAll rest).map (fun r => its ++ r)
      | none => some its

/-- Embedding of `request_playlists` (src/main.rs:117-140), applied to the
page sequence the remote would serve. -/
def request_playlists (pages : List (Page YtPlaylist)) : Option (List YtPlaylist) :=
  fetchAll pages

/-- Embedding of `parse_playlist_items` (src/main.rs:142-169), applied to the
page sequence the remote would serve for one playlist id. -/
def parse_playlist_items (pages : List (Page YtPlaylistItem)) : Option (List YtPlaylistItem) :=
  fetchAll pages

/-- A page sequence exactly consumable by the loop: every page carries an
items collection, every page but the last carries a continuation token,
and the last page carries none. -/
def consumable {α : Type} : List (Page α) → Bool
  | [] => false
  | [p] => p.items.isSome && p.next_page_token.isNone
  | p :: q :: rest => p.items.isSome && p.next_page_token.isSome && consumable (q :: rest)

/-- Concatenation of all pages' items in page order. -/
def pagesConcat {α : Type} (pages : List (Page α)) : List α :=
  (pages.map (fun p => p.items.getD [])).flatten

/-- Embedding of the `SavePlaylistsToJson` playlist loop (src/main.rs:291-313):
returns the output records and, separately, the source objects for which a
missing-id diagnostic was emitted to the error stream. `itemsFor` stands
for the per-id `parse_playlist_items` fetch. -/
def processPlaylists (itemsFor : Str → List YtPlaylistItem) :
    List YtPlaylist → List Playlist × List YtPlaylist
  | [] => ([], [])
  | p :: rest =>
    let playlist := parse_playlist p
    let tailResult := processPlaylists itemsFor rest
    match p.id with
    | some id =>
      ({ playlist with items := (itemsFor id).map parse_playlist_item } :: tailResult.1,
        tailResult.2)
    | none => (tailResult.1, p :: tailResult.2)

/-- One `#content` block of the HTML snapshot as the extraction loop
(src/main.rs:343-388) observes it: optional trimmed title text, optional
trimmed channel text, and the optional link element carrying an optional
target attribute. -/
structure ContentBlock where
  title : Option Str
  channel : Option Str
  linkElem : Option (Option Str)
deriving DecidableEq

/-- Embedding of one iteration of the extraction loop (src/main.rs:344-388):
missing title or channel degrade to the empty string; a missing link
element yields empty link and id; a present link element reads its target
attribute with empty-string default and derives the id with
`split_video_id`, whose panic is modelled as `none`. -/
def extractBlock (b : ContentBlock) : Option SimplePlaylistItem :=
  let item_title := b.title.getD []
  let item_channel := b.channel.getD []
  match b.linkElem with
  | some href =>
    let item_link := href.getD []
    match split_video_id item_link with
    | some vid =>
      some { title := item_title, channel_name := item_channel
             link := item_link, id := vid }
    | none => none
  | none =>
    some { title := item_title, channel_name := item_channel, link := [], id := [] }

/-- Embedding of the whole extraction loop: a panic in any block aborts the
run (`none`); otherwise the records are accumulated in block order. -/
def extractAll : List ContentBlock → Option (List SimplePlaylistItem)
  | [] => some []
  | b :: rest =>
    match extractBlock b with
    | none => none
    | some item => (extractAll rest).map (fun r => item :: r)

/-- Embedding of the output filter (src/main.rs:390). -/
def filterOutput (l : List SimplePlaylistItem) : List SimplePlaylistItem :=
  l.filter (fun x => !x.id.isEmpty)

/-- Where serialized output goes: the live output stream or a file path. -/
inductive OutputDest : Type
  | stream : OutputDest
  | file : Str → OutputDest
deriving DecidableEq

/-- Embedding of the `SavePlaylistsToJson` output-path selection
(src/main.rs:315-325): the JSON is always written to a file, with a
default path when none is supplied. -/
def savePlaylistsDest (output_file : Option Str) : OutputDest :=
  OutputDest.file (output_file.getD "youtube-output.json".toList)

/-- Embedding of the `SaveWatchLaterHtmlToJson` output-path selection
(src/main.rs:392-402): likewise always a file. -/
def saveWatchLaterDest (output_file : Option Str) : OutputDest :=
  OutputDest.file (output_file.getD "youtube-output-wl.json".toList)

/-! ## Helper lemmas -/

/-- A split result is never the empty list. -/
theorem splitOnFuel_ne_nil (sep : List Char) :
    ∀ fuel s acc, splitOnFuel sep fuel s acc ≠ [] := by
  intro fuel
  induction fuel with
  | zero => intro s acc; cases s <;> simp [splitOnFuel]
  | succ n ih =>
    intro s acc
    cases s with
    | nil => simp [splitOnFuel]
    | cons c rest =>
      simp only [splitOnFuel]
      split
      · simp
      · exact ih rest (c :: acc)

/-- A split result is never the empty list. -/
theorem splitOnL_ne_nil (sep s : List Char) : splitOnL sep s ≠ [] :=
  splitOnFuel_ne_nil sep s.length s []

/-- Indexing a split result at 0 always succeeds and yields its head. -/
theorem splitOnL_get_zero (sep s : List Char) :
    (splitOnL sep s).get? 0 = some ((splitOnL sep s).headD []) := by
  cases h : splitOnL sep s with
  | nil => exact absurd h (splitOnL_ne_nil sep s)
  | cons a t => simp

/-- Step equation: a page with items and a continuation token makes the loop
continue on the remaining pages. -/
theorem fetchAll_cons_some {α : Type} (p : Page α) (rest : List (Page α)) (its : List α)
    (t : Str) (hits : p.items = some its) (htok : p.next_page_token = some t) :
    fetchAll (p :: rest) = (fetchAll rest).map (fun r => its ++ r) := by
  simp [fetchAll, hits, htok]

/-- Step equation: a page with items and no continuation token stops the loop,
ignoring any further pages. -/
theorem fetchAll_cons_none {α : Type} (p : Page α) (rest : List (Page α)) (its : List α)
    (hits : p.items = some its) (htok : p.next_page_token = none) :
    fetchAll (p :: rest) = some its := by
  simp [fetchAll, hits, htok]

/-- On a page sequence the loop exactly consumes, `fetchAll` succeeds and
returns the in-order concatenation of all pages' items. -/
theorem fetchAll_eq_of_consumable {α : Type} :
    ∀ pages : List (Page α), consumable pages = true →
      fetchAll pages = some (pagesConcat pages) := by
  intro pages
  induction pages with
  | nil => intro h; simp [consumable] at h
  | cons p rest ih =>
    intro h
    cases rest with
    | nil =>
      simp only [consumable, Bool.and_eq_true] at h
      obtain ⟨hi, ht⟩ := h
      obtain ⟨its, hits⟩ := Option.isSome_iff_exists.mp hi
      rw [fetchAll_cons_none p [] its hits (Option.isNone_iff_eq_none.mp ht)]
      simp [pagesConcat, hits]
    | cons q rest2 =>
      simp only [consumable, Bool.and_eq_true] at h
      obtain ⟨⟨hi, ht⟩, hc⟩ := h
      obtain ⟨its, hits⟩ := Option.isSome_iff_exists.mp hi
      obtain ⟨t, htok⟩ := Option.isSome_iff_exists.mp ht
      rw [fetchAll_cons_some p (q :: rest2) its t hits htok, ih hc]
      simp [pagesConcat, hits]

/-! ## Claim theorems -/

/-- Claim C1: the paginated fetch (`request_playlists`, and
`parse_playlist_items` for a given playlist id) returns the concatenation of
all pages' item sequences in page order, without reordering or deduplication;
it issues another call whenever the response carries a next cursor, even when
a page's item collection is empty, and it stops exactly when the cursor is
absent, ignoring any further pages. -/
theorem C1_pagination_concat :
    (∀ pages : List (Page YtPlaylist), consumable pages = true →
        request_playlists pages = some (pagesConcat pages)) ∧
    (∀ pages : List (Page YtPlaylistItem), consumable pages = true →
        parse_playlist_items pages = some (pagesConcat pages)) ∧
    (∀ (α : Type) (p : Page α) (rest : List (Page α)) (its : List α),
        p.items = some its → p.next_page_token = none →
        fetchAll (p :: rest) = some its) := by
  refine ⟨?_, ?_, ?_⟩
  · intro pages h; exact fetchAll_eq_of_consumable pages h
  · intro pages h; exact fetchAll_eq_of_consumable pages h
  · intro α p rest its hits htok; exact fetchAll_cons_none p rest its hits htok

/-- Witness for C1: a first page with an empty item collection but a cursor
still continues to the second page; a page without a cursor stops the loop
even when further pages exist. -/
theorem C1_pagination_concat_witness :
    request_playlists
        [{ items := some [], next_page_token := some "t".toList },
         { items := some [{ id := none, status := none, snippet := none }],
           next_page_token := none }] =
      some [{ id := none, status := none, snippet := none }] ∧
    fetchAll [({ items := some [7], next_page_token := none } : Page Nat),
              { items := some [8], next_page_token := some "u".toList }] = some [7] := by
  constructor
  · exact (C1_pagination_concat.1 _ (by decide)).trans (by decide)
  · exact C1_pagination_concat.2.2 Nat _
      [{ items := some [8], next_page_token := some "u".toList }] [7] rfl rfl

/-- Claim C9: both pagination loops unconditionally unwrap the response's
items field, so a successfully returned page whose items collection is absent
makes the fetch panic (modelled as `none`); the unwrap is safe whenever every
consumed page carries an items list. -/
theorem C9_items_unwrap :
    (∀ (α : Type) (pre : List (Page α)) (p : Page α) (post : List (Page α)),
        (∀ q ∈ pre, q.items.isSome = true ∧ q.next_page_token.isSome = true) →
        p.items = none →
        fetchAll (pre ++ p :: post) = none) ∧
    (∀ (α : Type) (pages : List (Page α)), consumable pages = true →
        (fetchAll pages).isSome = true) := by
  constructor
  · intro α pre p post
    induction pre with
    | nil => intro _ hp; simp [fetchAll, hp]
    | cons q pre2 ih =>
      intro hq hp
      have hq1 := hq q (by simp)
      obtain ⟨its, hits⟩ := Option.isSome_iff_exists.mp hq1.1
      obtain ⟨t, ht⟩ := Option.isSome_iff_exists.mp hq1.2
      have hrec := ih (fun r hr => hq r (by simp [hr])) hp
      rw [List.cons_append, fetchAll_cons_some q _ its t hits ht, hrec]
      rfl
  · intro α pages h
    rw [fetchAll_eq_of_consumable pages h]; rfl

/-- Witness for C9: a first page with no items collection panics; a single
complete page succeeds. -/
theorem C9_items_unwrap_witness :
    fetchAll ([] ++ ({ items := none, next_page_token := none } : Page Nat) :: []) = none ∧
    (fetchAll [({ items := some [3], next_page_token := none } : Page Nat)]).isSome = true := by
  constructor
  · exact C9_items_unwrap.1 Nat [] _ [] (by simp) rfl
  · exact C9_items_unwrap.2 Nat _ (by decide)

/-- Counterexample to C2: for a playlist whose snippet is absent,
`parse_playlist` leaves title (and the whole snippet-derived group) as the
empty string, not the documented `NO_TITLE` default. -/
theorem C2_counterexample :
    (parse_playlist { id := some "x".toList, status := none, snippet := none }).title = [] ∧
    ((parse_playlist { id := some "x".toList, status := none, snippet := none }).title ==
        "NO_TITLE".toList) = false := by
  exact ⟨by decide, by decide⟩

/-- Amended C2: when the snippet sub-object is absent the whole snippet-derived
group (title, description, channel title, tags, published-at) is the empty
string, while id and status are still resolved from the top-level object;
when the snippet is present, an absent title, channel title or published-at
defaults to `NO_TITLE`, and an absent description or an absent tags sequence
to the empty string. -/
theorem C2_snippet_defaults :
    (∀ p : YtPlaylist, p.snippet = none →
        (parse_playlist p).title = [] ∧
        (parse_playlist p).description = [] ∧
        (parse_playlist p).channel_title = [] ∧
        (parse_playlist p).tags = [] ∧
        (parse_playlist p).published_at = [] ∧
        (parse_playlist p).id = get_text p.id [] ∧
        (parse_playlist p).status =
          get_text (p.status.getD { privacy_status := some "Unknown".toList }).privacy_status
            "Unknown".toList) ∧
    (∀ (p : YtPlaylist) (s : YtPlaylistSnippet), p.snippet = some s →
        (s.title = none → (parse_playlist p).title = "NO_TITLE".toList) ∧
        (s.channel_title = none → (parse_playlist p).channel_title = "NO_TITLE".toList) ∧
        (s.published_at = none → (parse_playlist p).published_at = "NO_TITLE".toList) ∧
        (s.description = none → (parse_playlist p).description = []) ∧
        (s.tags = none → (parse_playlist p).tags = []) ∧
        (parse_playlist p).id = get_text p.id []) := by
  constructor
  · intro p h
    simp [parse_playlist, Playlist.new, h]
  · intro p s h
    refine ⟨?_, ?_, ?_, ?_, ?_, ?_⟩ <;>
      first
        | (intro hf; simp [parse_playlist, Playlist.new, h, hf, List.intercalate])
        | simp [parse_playlist, Playlist.new, h]

/-- Witness for the amended C2 at concrete playlists with and without a
snippet. -/
theorem C2_snippet_defaults_witness :
    (parse_playlist { id := some "x".toList, status := none, snippet := none }).tags = [] ∧
    (parse_playlist
        { id := some "y".toList, status := none,
          snippet := some { title := none, description := none, channel_title := none,
                            tags := none, published_at := none } }).title =
      "NO_TITLE".toList := by
  constructor
  · exact (C2_snippet_defaults.1 _ rfl).2.2.2.1
  · exact (C2_snippet_defaults.2 _
      { title := none, description := none, channel_title := none,
        tags := none, published_at := none } rfl).1 rfl

/-- Claim C5: in `parse_playlist_item`, when the snippet is present the
snippet-level published-at is written after the content-details-level
published timestamp, so whenever both carry a value the snippet value appears
in the output. -/
theorem C5_snippet_published_wins :
    ∀ (item : YtPlaylistItem) (s : YtItemSnippet) (d : YtContentDetails) (v w : Str),
      item.snippet = some s → item.content_details = some d →
      s.published_at = some v → d.video_published_at = some w →
      (parse_playlist_item item).published_at = v := by
  intro item s d v w hs hd hv hw
  simp [parse_playlist_item, hs, hd, hv, get_text]

/-- Witness for C5 at a concrete item where both timestamp sources are
populated: the snippet one appears. -/
theorem C5_snippet_published_wins_witness :
    (parse_playlist_item
        { snippet := some { title := some "T".toList, position := some 1,
                            published_at := some "SNIP".toList,
                            description := some "D".toList },
          content_details := some { video_id := some "V".toList,
                                    video_published_at := some "DET".toList } }).published_at =
      "SNIP".toList := by
  exact C5_snippet_published_wins _
    { title := some "T".toList, position := some 1, published_at := some "SNIP".toList,
      description := some "D".toList }
    { video_id := some "V".toList, video_published_at := some "DET".toList }
    "SNIP".toList "DET".toList rfl rfl rfl rfl

/-- Joining a singleton with any separator is the identity. -/
theorem intercalate_single (sep x : List Char) : List.intercalate sep [x] = x := by
  simp [List.intercalate]

/-- Counterexample to C6's general statement: on a link where `watch?v=`
occurs twice before `&list=`, Rust split truncates at the second `watch?v=`,
so the result is not the substring strictly between the first `watch?v=` and
the next `&list=` (which `specBetween` computes from the claim's words). -/
theorem C6_counterexample :
    split_video_id "watch?v=Awatch?v=B&list=C".toList = some "A".toList ∧
    specBetween "watch?v=Awatch?v=B&list=C".toList = "Awatch?v=B".toList ∧
    (split_video_id "watch?v=Awatch?v=B&list=C".toList ==
        some (specBetween "watch?v=Awatch?v=B&list=C".toList)) = false := by
  exact ⟨by decide, by decide, by decide⟩

/-- Amended C6: the concrete derivation holds, and whenever `watch?v=` occurs
exactly once in the link (split yields exactly two parts), the result is the
substring strictly between the first `watch?v=` and the next `&list=`. -/
theorem C6_video_id_derivation :
    (split_video_id "https://x/watch?v=ABC123&list=XYZ".toList = some "ABC123".toList) ∧
    (∀ link : Str, (splitOnL wmark link).length = 2 →
        split_video_id link = some (specBetween link)) := by
  constructor
  · decide
  · intro link h
    obtain ⟨a, b, hab⟩ := List.length_eq_two.mp h
    simp only [split_video_id, specBetween, remainderAfterFirst, hab, List.tail_cons,
      intercalate_single, List.get?]
    exact splitOnL_get_zero lmark b

/-- Witness for the amended C6 at the spec's concrete link, where `watch?v=`
occurs once. -/
theorem C6_video_id_derivation_witness :
    split_video_id "https://x/watch?v=ABC123&list=XYZ".toList =
      some (specBetween "https://x/watch?v=ABC123&list=XYZ".toList) := by
  exact C6_video_id_derivation.2 _ (by decide)

/-- Counterexample to C10's general statement: with `watch?v=` occurring twice
and no `&list=`, the code does not return the entire remainder after the
first `watch?v=` but only the part up to the second occurrence. -/
theorem C10_counterexample :
    split_video_id "watch?v=Awatch?v=B".toList = some "A".toList ∧
    remainderAfterFirst wmark "watch?v=Awatch?v=B".toList = "Awatch?v=B".toList ∧
    (split_video_id "watch?v=Awatch?v=B".toList ==
        some (remainderAfterFirst wmark "watch?v=Awatch?v=B".toList)) = false := by
  exact ⟨by decide, by decide, by decide⟩

/-- Amended C10: `split_video_id` is partial. For a link where `watch?v=`
occurs exactly once and the remainder contains no `&list=`, it returns that
entire remainder without failing; for a link not containing `watch?v=` at all
(split yields one part, including the empty link from a missing href), it
panics, modelled as `none`. -/
theorem C10_split_behavior :
    (∀ (link a b : Str), splitOnL wmark link = [a, b] → splitOnL lmark b = [b] →
        split_video_id link = some (remainderAfterFirst wmark link)) ∧
    (∀ (link x : Str), splitOnL wmark link = [x] → split_video_id link = none) := by
  constructor
  · intro link a b hab hb
    simp [split_video_id, remainderAfterFirst, hab, hb, intercalate_single]
  · intro link x hx
    simp [split_video_id, hx]

/-- Witness for the amended C10: a lone `watch?v=` with no `&list=` yields the
whole remainder; a link without `watch?v=` panics. -/
theorem C10_split_behavior_witness :
    split_video_id "watch?v=ABC".toList =
      some (remainderAfterFirst wmark "watch?v=ABC".toList) ∧
    split_video_id "no-marker".toList = none := by
  constructor
  · exact C10_split_behavior.1 _ [] "ABC".toList (by decide) (by decide)
  · exact C10_split_behavior.2 _ "no-marker".toList (by decide)

/-- Claim C3 evaluated on the code: with no output path supplied, both
subcommands write the serialized JSON to a default file
(`youtube-output.json` / `youtube-output-wl.json`), not to the live output
stream that the claim and the CLI's own option documentation describe. -/
theorem C3_output_destination :
    savePlaylistsDest none = OutputDest.file "youtube-output.json".toList ∧
    saveWatchLaterDest none = OutputDest.file "youtube-output-wl.json".toList := by
  exact ⟨rfl, rfl⟩

/-- Claim C4 evaluated on the code: a content block whose link element lacks
its target attribute makes the run abort (the empty-string default feeds
`split_video_id`, which panics), contrary to the claimed degrade-and-continue
policy; blocks missing the title, channel, or the whole link element do
degrade to empty-string defaults and extraction continues. -/
theorem C4_extractor_behavior :
    extractAll [{ title := none, channel := none, linkElem := some none }] = none ∧
    (∀ (b : ContentBlock) (rest : List ContentBlock), b.linkElem = none →
        extractAll (b :: rest) =
          (extractAll rest).map
            (fun r =>
              { title := b.title.getD [], channel_name := b.channel.getD []
                link := [], id := [] } :: r)) := by
  constructor
  · decide
  · intro b rest h
    simp [extractAll, extractBlock, h]

/-- Witness for C4's degrade-and-continue part at a concrete block with no
link element. -/
theorem C4_extractor_behavior_witness :
    extractAll [{ title := some "T".toList, channel := none, linkElem := none }] =
      some [{ title := "T".toList, channel_name := [], link := [], id := [] }] := by
  exact (C4_extractor_behavior.2
    { title := some "T".toList, channel := none, linkElem := none } [] rfl).trans (by decide)

/-- Claim C7: the output filter keeps exactly the records with non-empty id,
preserving relative order (the filtered sequence is a sublist of the
original), and removes one record per empty id. -/
theorem C7_filter_invariant :
    ∀ l : List SimplePlaylistItem,
      (∀ x ∈ filterOutput l, x.id ≠ []) ∧
      List.Sublist (filterOutput l) l ∧
      l.countP (fun x => x.id.isEmpty) + (filterOutput l).length = l.length := by
  intro l
  refine ⟨?_, ?_, ?_⟩
  · intro x hx heq
    simp only [filterOutput] at hx
    have h2 := (List.mem_filter.mp hx).2
    rw [heq] at h2
    simp at h2
  · exact List.filter_sublist l
  · induction l with
    | nil => simp [filterOutput]
    | cons a l ih =>
      by_cases h : a.id.isEmpty <;>
        simp [filterOutput, List.filter_cons, List.countP_cons, h] at ih ⊢ <;> omega

/-- Witness for C7: five extracted items of which two have an empty id yield
exactly three output items. -/
theorem C7_filter_invariant_witness :
    (filterOutput
        [{ title := "a".toList, channel_name := [], link := [], id := "1".toList },
         { title := "b".toList, channel_name := [], link := [], id := [] },
         { title := "c".toList, channel_name := [], link := [], id := "2".toList },
         { title := "d".toList, channel_name := [], link := [], id := [] },
         { title := "e".toList, channel_name := [], link := [], id := "3".toList }]).length =
      3 := by
  have h :=
    (C7_filter_invariant
      [{ title := "a".toList, channel_name := [], link := [], id := "1".toList },
       { title := "b".toList, channel_name := [], link := [], id := [] },
       { title := "c".toList, channel_name := [], link := [], id := "2".toList },
       { title := "d".toList, channel_name := [], link := [], id := [] },
       { title := "e".toList, channel_name := [], link := [], id := "3".toList }]).2.2
  have h2 :
      ([{ title := "a".toList, channel_name := [], link := [], id := "1".toList },
        { title := "b".toList, channel_name := [], link := [], id := [] },
        { title := "c".toList, channel_name := [], link := [], id := "2".toList },
        { title := "d".toList, channel_name := [], link := [], id := [] },
        { title := "e".toList, channel_name := [], link := [], id := "3".toList }] :
          List SimplePlaylistItem).countP (fun x => x.id.isEmpty) = 2 := by decide
  have h3 :
      ([{ title := "a".toList, channel_name := [], link := [], id := "1".toList },
        { title := "b".toList, channel_name := [], link := [], id := [] },
        { title := "c".toList, channel_name := [], link := [], id := "2".toList },
        { title := "d".toList, channel_name := [], link := [], id := [] },
        { title := "e".toList, channel_name := [], link := [], id := "3".toList }] :
          List SimplePlaylistItem).length = 5 := by decide
  omega

/-- Claim C8: a fetched playlist whose top-level id is absent is skipped with
a diagnostic referencing the full source object, and processing continues
with the remaining records without aborting. -/
theorem C8_missing_id_skipped :
    ∀ (itemsFor : Str → List YtPlaylistItem) (p : YtPlaylist) (rest : List YtPlaylist),
      p.id = none →
      processPlaylists itemsFor (p :: rest) =
        ((processPlaylists itemsFor rest).1, p :: (processPlaylists itemsFor rest).2) := by
  intro f p rest h
  simp [processPlaylists, h]

/-- Witness for C8 at a concrete id-less playlist: no output record, one
diagnostic referencing the source object. -/
theorem C8_missing_id_skipped_witness :
    processPlaylists (fun _ => []) [{ id := none, status := none, snippet := none }] =
      ([], [{ id := none, status := none, snippet := none }]) := by
  exact (C8_missing_id_skipped (fun _ => []) _ [] rfl).trans (by decide)
